import Mathlib

/-!
Verification of the multitok download orchestrator (`multitok.py`).

The Python source is shallowly embedded: pure fragments become Lean
functions, the network and the third-party mirror pages become explicit
environment records, and filesystem / cache / error-log effects become
explicit state passing.  Exceptions are embedded as `Except` values or as
an explicit `raised` field when they escape a Python `try` block.
-/

namespace Multitok

/-! ## Generic string helpers (embedding Python's `in`, `strip`, `split`, `os.path.join`) -/

/-- Python's substring test `pat in s`, on character lists. -/
def containsSub (s pat : List Char) : Bool :=
  match s with
  | [] => pat.isEmpty
  | _ :: rest => pat.isPrefixOf s || containsSub rest pat

/-- The characters Python's `str.strip()` removes by default. -/
def pyWhitespace (c : Char) : Bool :=
  c = ' ' || c = '\t' || c = '\n' || c = '\r' || c = '\x0b' || c = '\x0c'

/-- Python's `str.strip()` on character lists. -/
def pythonStrip (s : List Char) : List Char :=
  ((s.dropWhile pyWhitespace).reverse.dropWhile pyWhitespace).reverse

/-- Python's `str.split(sep)` for a single-newline separator: splitting the
empty string yields `[[]]`, never the empty list. -/
def splitNewlines : List Char → List (List Char)
  | [] => [[]]
  | c :: rest =>
    match splitNewlines rest with
    | [] => [[c]]
    | h :: t => if c = '\n' then [] :: h :: t else (c :: h) :: t

/-- `os.path.join` restricted to the relative paths this program builds. -/
def osJoin (a b : String) : String := a ++ "/" ++ b

/-! ## Identifier Extractor (`extract_video_id`, multitok.py lines 59-74)

Python's `re.search` for the two patterns used by the source is embedded
directly: `@([A-Za-z0-9_.]+)` and `/(video|photo)/(\d+)`. -/

/-- The character class `[A-Za-z0-9_.]` of the username pattern. -/
def handleChar (c : Char) : Bool :=
  c.isAlpha || c.isDigit || c = '_' || c = '.'

/-- `re.search(r"@([A-Za-z0-9_.]+)", url)`: leftmost `@` followed by a
nonempty maximal run of handle characters; returns `group(0)` (so the
leading `@` is kept, as in the source). -/
def searchUsername : List Char → Option (List Char)
  | [] => none
  | c :: rest =>
    if c = '@' then
      match rest.takeWhile handleChar with
      | [] => searchUsername rest
      | run => some (c :: run)
    else searchUsername rest

/-- `re.search(r"/(video|photo)/(\d+)", url)`: leftmost occurrence of
`/video/` or `/photo/` followed by at least one digit; returns
`(group(1), group(2))` with a greedy digit run. -/
def searchContent : List Char → Option (String × List Char)
  | [] => none
  | c :: rest =>
    let s := c :: rest
    if "/video/".toList.isPrefixOf s then
      match (s.drop 7).takeWhile Char.isDigit with
      | [] => searchContent rest
      | run => some ("video", run)
    else if "/photo/".toList.isPrefixOf s then
      match (s.drop 7).takeWhile Char.isDigit with
      | [] => searchContent rest
      | run => some ("photo", run)
    else searchContent rest

/-- `username_match.group(0)` and `content_type_match.group(1)` on a failed
`re.search` both raise `AttributeError` in Python; the spec calls this
failure mode `MalformedLinkError`.  The two constructors record which
pattern was missing. -/
inductive MalformedLinkError where
  | noUsernameMatch
  | noContentMatch
deriving DecidableEq, Repr

/-- The pattern-matching core of `extract_video_id` (lines 64-74), applied
to the (already redirect-resolved) URL.  The username pattern is consulted
first, as in the source, so a URL missing both patterns fails on the
username. -/
def extractCore (url : String) : Except MalformedLinkError (String × String × String) :=
  match searchUsername url.toList with
  | none => .error .noUsernameMatch
  | some u =>
    match searchContent url.toList with
    | none => .error .noContentMatch
    | some (ctype, vid) => .ok (u.asString, vid.asString, ctype)

/-- Lines 60-62: a `vm.tiktok.com` short link is first resolved by one GET
request; the network is embedded as the oracle `resolve`. -/
def resolveUrl (resolve : String → String) (url : String) : String :=
  if containsSub url.toList "vm.tiktok.com".toList then resolve url else url

/-- `extract_video_id` (lines 59-74): optional short-link resolution, then
pattern extraction, returning `(username, video_id, content_type)`. -/
def extract_video_id (resolve : String → String) (url : String) :
    Except MalformedLinkError (String × String × String) :=
  extractCore (resolveUrl resolve url)

/-- Line 318: `links.read().strip().split('\n')`. -/
def tiktok_links (content : String) : List String :=
  (splitNewlines (pythonStrip content.toList)).map List.asString

example : tiktok_links "a\n\nb" = ["a", "", "b"] := by decide
example : tiktok_links " \t\n " = [""] := by decide
example : extract_video_id id "https://www.tiktok.com/@some_user/video/7341234567890123456" =
    .ok ("@some_user", "7341234567890123456", "video") := rfl
example : extract_video_id id "" = .error .noUsernameMatch := rfl
example : extract_video_id id "https://www.tiktok.com/@u/live" = .error .noContentMatch := rfl

/-! ## Configuration (the `args` object, lines 19-30) -/

/-- The command-line options that influence the embedded code paths. -/
structure Config where
  watermark : Bool
  save_metadata : Bool
  skip_existing : Bool
  no_folders : Bool
  output_dir : String
deriving DecidableEq, Repr

/-! ## Python exceptions crossing the embedded code -/

/-- Exceptions the embedded paths can produce.  `contentUnavailable` is the
source's `Exception('Post is either private or removed.')`;
`attributeError` is `.group` on a failed `re.search`; `indexError` is list
indexing out of range; `requestError` stands for a transport-level failure
of a named request. -/
inductive PyError where
  | contentUnavailable
  | attributeError
  | indexError
  | requestError (msg : String)
deriving DecidableEq, Repr

/-- `str(exception)` for the error-log line written at line 344. -/
def pyMsg : PyError → String
  | .contentUnavailable => "Post is either private or removed."
  | .attributeError => "AttributeError"
  | .indexError => "list index out of range"
  | .requestError m => m

/-! ## Filesystem model -/

/-- The filesystem as seen by the program: a set of directories and an
association list from file path to the list of chunks written to it. -/
structure FS where
  dirs : List String
  files : List (String × List String)
deriving DecidableEq, Repr

/-- `os.path.exists` on a file path. -/
def FS.fileExists (fs : FS) (p : String) : Bool :=
  fs.files.any (fun e => e.1 = p)

/-- `os.makedirs(d)` guarded by `not os.path.exists(d)` (lines 125-126,
152-153). -/
def FS.mkdirIfMissing (fs : FS) (d : String) : FS :=
  if fs.dirs.contains d then fs else { fs with dirs := d :: fs.dirs }

/-- `open(p, 'wb')` followed by writing all chunks: any previous entry for
the path is replaced. -/
def FS.writeFile (fs : FS) (p : String) (chunks : List String) : FS :=
  { fs with files := (p, chunks) :: fs.files.filter (fun e => ¬ e.1 = p) }

/-! ## Stream Downloader (`downloader`, lines 114-159) -/

/-- The `downloader` function's view of the outside world: the redirect
resolver used by its own `extract_video_id` call, and `extract_metadata`
(fetch and parse of the canonical page, lines 77-99), which may raise. -/
structure DlEnv where
  resolve : String → String
  extract_metadata : String → Except PyError String

/-- Line 123 / line 120: the output folder. -/
def downloaderFolder (cfg : Config) (username : String) : String :=
  if cfg.no_folders then cfg.output_dir else osJoin cfg.output_dir username

/-- Line 121: flat layout renames the file with a `<username>_` marker. -/
def downloaderFileBase (cfg : Config) (username file_name : String) : String :=
  if cfg.no_folders then username ++ "_" ++ file_name else file_name

/-- Line 129: the destination path of one media file. -/
def destPath (cfg : Config) (username file_name extension : String) : String :=
  osJoin (downloaderFolder cfg username)
    (downloaderFileBase cfg username file_name ++ "." ++ extension)

/-- Line 150 / line 148: the metadata directory. -/
def metadataDir (cfg : Config) (username : String) : String :=
  if cfg.no_folders then osJoin cfg.output_dir "metadata"
  else osJoin (downloaderFolder cfg username) "metadata"

/-- Result of one `downloader` call.  `raised` is the exception escaping the
call, if any (it is then caught by the provider function's `try`);
`streamReads` counts `response.iter_content` chunks consumed; `fileWrites`
counts `file.write` calls on the destination; `mediaPath` is the computed
destination path (recorded even when the write is skipped);
`metadataFetches` counts `extract_metadata` calls. -/
structure DownloaderOut where
  fs : FS
  extractCalls : Nat
  streamReads : Nat
  fileWrites : Nat
  metadataFetches : Nat
  mediaPath : Option String
  raised : Option PyError
deriving Repr

/-- `downloader(file_name, link, response, extension)` (lines 114-159).
The response body is the chunk list `response`; the content-length header
only drives the progress bar and is not modelled. -/
def downloader (cfg : Config) (env : DlEnv) (file_name link : String)
    (response : List String) (extension : String) (fs : FS) : DownloaderOut :=
  match extract_video_id env.resolve link with
  | .error _ =>
    ⟨fs, 1, 0, 0, 0, none, some .attributeError⟩
  | .ok (username0, _, content_type) =>
    let username := username0.drop 1
    let folder_name := downloaderFolder cfg username
    let file_name1 := downloaderFileBase cfg username file_name
    let fs1 := fs.mkdirIfMissing folder_name
    let file_path := osJoin folder_name (file_name1 ++ "." ++ extension)
    if fs1.fileExists file_path && cfg.skip_existing then
      ⟨fs1, 1, 0, 0, 0, some file_path, none⟩
    else
      let fs2 := fs1.writeFile file_path response
      if cfg.save_metadata && !(content_type = "photo") then
        let fs3 := fs2.mkdirIfMissing (metadataDir cfg username)
        match env.extract_metadata link with
        | .error e =>
          ⟨fs3, 1, response.length, response.length, 1, some file_path, some e⟩
        | .ok meta =>
          let fs4 := fs3.writeFile (osJoin (metadataDir cfg username) (file_name1 ++ ".json")) [meta]
          ⟨fs4, 1, response.length, response.length, 1, some file_path, none⟩
      else
        ⟨fs2, 1, response.length, response.length, 0, some file_path, none⟩

/-! ## Provider strategies (`download_v3`, lines 162-214; `download_v1`, lines 271-313)

The mirror pages are abstracted into environment records: `bootstrap`
models a failure of the landing GET / token POST sequence (lines 183-193
ff.); `videoLinks` and `photoLinks` are the candidate URL lists the
selector queries return; `fetch` is the streaming GET of one direct URL,
yielding the body chunks or raising. -/

/-- How one provider-function call ends: `(True, None)`, `(False, ex)`, or
an exception escaping the function (possible because `extract_video_id` is
called before the `try` block). -/
inductive Outcome where
  | ok
  | failed (e : PyError)
  | raised (e : PyError)
deriving DecidableEq, Repr

/-- Instrumented result of one provider-function call. -/
structure AttemptResult where
  fs : FS
  extractCalls : Nat
  mediaPaths : List String
  metadataFetches : Nat
  outcome : Outcome
deriving Repr

/-- Environment of one `download_v3` call. -/
structure V3Env where
  resolve : String → String
  bootstrap : Option PyError
  videoLinks : List String
  photoLinks : List String
  fetch : String → Except PyError (List String)
  extract_metadata : String → Except PyError String

def V3Env.dlEnv (env : V3Env) : DlEnv := ⟨env.resolve, env.extract_metadata⟩

/-- Running result of the photo loop (lines 208-210 / 307-309): filesystem,
counters, and `some e` when iteration stopped on an exception. -/
structure PhotoLoopOut where
  fs : FS
  extractCalls : Nat
  mediaPaths : List String
  metadataFetches : Nat
  error : Option PyError
deriving Repr

/-- The photo branch: `for index, download_link in enumerate(download_links)`
(lines 208-210; identical shape at lines 307-309), starting at `index`. -/
def photoLoop (cfg : Config) (denv : DlEnv)
    (fetch : String → Except PyError (List String))
    (file_name link : String) :
    List String → Nat → FS → PhotoLoopOut
  | [], _, fs => ⟨fs, 0, [], 0, none⟩
  | dl :: rest, index, fs =>
    match fetch dl with
    | .error e => ⟨fs, 0, [], 0, some e⟩
    | .ok chunks =>
      let d := downloader cfg denv (file_name ++ "_" ++ toString index) link chunks "jpeg" fs
      match d.raised with
      | some e => ⟨d.fs, d.extractCalls, d.mediaPath.toList, d.metadataFetches, some e⟩
      | none =>
        let r := photoLoop cfg denv fetch file_name link rest (index + 1) d.fs
        ⟨r.fs, d.extractCalls + r.extractCalls, d.mediaPath.toList ++ r.mediaPaths,
          d.metadataFetches + r.metadataFetches, r.error⟩

/-- `download_v3(link)` (lines 162-214).  `extract_video_id` runs before
the `try`, so its failure escapes as `raised`; everything inside the `try`
turns into `(False, ex)` = `failed`. -/
def download_v3 (cfg : Config) (env : V3Env) (link : String) (fs : FS) : AttemptResult :=
  match extract_video_id env.resolve link with
  | .error _ => ⟨fs, 1, [], 0, .raised .attributeError⟩
  | .ok (_, file_name, content_type) =>
    match env.bootstrap with
    | some e => ⟨fs, 1, [], 0, .failed e⟩
    | none =>
      if content_type = "video" then
        if env.videoLinks.length = 0 then
          ⟨fs, 1, [], 0, .failed .contentUnavailable⟩
        else
          let download_link_index := if cfg.watermark then 2 else 0
          match env.videoLinks.get? download_link_index with
          | none => ⟨fs, 1, [], 0, .failed .indexError⟩
          | some dl =>
            match env.fetch dl with
            | .error e => ⟨fs, 1, [], 0, .failed e⟩
            | .ok chunks =>
              let d := downloader cfg env.dlEnv file_name link chunks "mp4" fs
              match d.raised with
              | some e => ⟨d.fs, 1 + d.extractCalls, d.mediaPath.toList, d.metadataFetches, .failed e⟩
              | none => ⟨d.fs, 1 + d.extractCalls, d.mediaPath.toList, d.metadataFetches, .ok⟩
      else
        let p := photoLoop cfg env.dlEnv env.fetch file_name link env.photoLinks 0 fs
        match p.error with
        | some e => ⟨p.fs, 1 + p.extractCalls, p.mediaPaths, p.metadataFetches, .failed e⟩
        | none => ⟨p.fs, 1 + p.extractCalls, p.mediaPaths, p.metadataFetches, .ok⟩

/-- Environment of one `download_v1` call; `errorFlag` is the mirror's
`response['error']` field (line 294). -/
structure V1Env where
  resolve : String → String
  bootstrap : Option PyError
  errorFlag : Bool
  videoLinks : List String
  photoLinks : List String
  fetch : String → Except PyError (List String)
  extract_metadata : String → Except PyError String

def V1Env.dlEnv (env : V1Env) : DlEnv := ⟨env.resolve, env.extract_metadata⟩

/-- `download_v1(link)` (lines 271-313).  Unlike `download_v3`, the video
branch has no explicit zero-candidate check: it indexes the candidate list
directly (line 301), so an empty list is an `IndexError`. -/
def download_v1 (cfg : Config) (env : V1Env) (link : String) (fs : FS) : AttemptResult :=
  match extract_video_id env.resolve link with
  | .error _ => ⟨fs, 1, [], 0, .raised .attributeError⟩
  | .ok (_, file_name, content_type) =>
    match env.bootstrap with
    | some e => ⟨fs, 1, [], 0, .failed e⟩
    | none =>
      if env.errorFlag then ⟨fs, 1, [], 0, .failed .contentUnavailable⟩
      else if content_type = "video" then
        let download_link_index := if cfg.watermark then 2 else 0
        match env.videoLinks.get? download_link_index with
        | none => ⟨fs, 1, [], 0, .failed .indexError⟩
        | some dl =>
          match env.fetch dl with
          | .error e => ⟨fs, 1, [], 0, .failed e⟩
          | .ok chunks =>
            let d := downloader cfg env.dlEnv file_name link chunks "mp4" fs
            match d.raised with
            | some e => ⟨d.fs, 1 + d.extractCalls, d.mediaPath.toList, d.metadataFetches, .failed e⟩
            | none => ⟨d.fs, 1 + d.extractCalls, d.mediaPath.toList, d.metadataFetches, .ok⟩
      else
        let p := photoLoop cfg env.dlEnv env.fetch file_name link env.photoLinks 0 fs
        match p.error with
        | some e => ⟨p.fs, 1 + p.extractCalls, p.mediaPaths, p.metadataFetches, .failed e⟩
        | none => ⟨p.fs, 1 + p.extractCalls, p.mediaPaths, p.metadataFetches, .ok⟩

/-! ## Orchestrator (`process_tt_link` and the main block, lines 316-347) -/

/-- Shared run state: the dedup cache (`url_cache.db`), the error log
(`errors.txt` as a list of lines), and the filesystem. -/
structure RunState where
  cache : List String
  errlog : List String
  fs : FS
deriving DecidableEq, Repr

/-- `process_tt_link(link)` (lines 333-344), sequentialised; the second
component counts invocations of the download function.  There is no
`try` around `download_function(link)`, so a `raised` outcome escapes:
nothing is cached and nothing is logged (the thread pool discards the
exception because the `executor.map` results are never consumed). -/
def process_tt_link (dl : String → FS → AttemptResult) (st : RunState) (link : String) :
    RunState × Nat :=
  if st.cache.contains link then (st, 0)
  else
    let r := dl link st.fs
    match r.outcome with
    | .ok => (⟨link :: st.cache, st.errlog, r.fs⟩, 1)
    | .failed e => (⟨st.cache, st.errlog ++ [link ++ " - " ++ pyMsg e], r.fs⟩, 1)
    | .raised _ => (⟨st.cache, st.errlog, r.fs⟩, 1)

/-- `executor.map(process_tt_link, tiktok_links)` (line 347), sequentialised
over the split links file. -/
def runAll (dl : String → FS → AttemptResult) (content : String) (st : RunState) : RunState :=
  (tiktok_links content).foldl (fun s l => (process_tt_link dl s l).1) st

/-! ## Retrying Transport (`mount_retry_logic_to_session`, lines 102-111)

The configuration is taken from the source.  The execution loop lives in
`urllib3.util.Retry`, which is not part of this repository, so it is
modelled from the spec (§4.3). -/

/-- The knobs of `urllib3.util.Retry` that the source sets (lines 103-107). -/
structure RetryCfg where
  total : Nat
  backoff_factor : Nat
  status_forcelist : List Nat
deriving DecidableEq, Repr

/-- The `retries` object built at lines 103-107. -/
def retries : RetryCfg := ⟨10, 1, [429, 500, 502, 503, 504]⟩

/-- Lines 109-111: one `HTTPAdapter(max_retries=retries)` mounted for both
URL schemes of the session. -/
def mount_retry_logic_to_session : List (String × RetryCfg) :=
  [("http://", retries), ("https://", retries)]

/-- How an outbound request of `download_v3` is issued: through the
session object `sess` (on which the retry adapter is mounted, line 180),
or through the module-level `requests` API, which does not use `sess` at
all. -/
inductive Transport where
  | session
  | moduleLevel
deriving DecidableEq, Repr

/-- The retry configuration mounted on each transport: `sess` carries the
adapter installed by `mount_retry_logic_to_session` (lines 109-111, 180);
a module-level `requests` call never passes through `sess`, so no adapter
of this program is mounted on it. -/
def transportRetries : Transport → Option RetryCfg
  | .session => some retries
  | .moduleLevel => none

/-- The outbound requests of one `download_v3` attempt in source order:
the landing GET (line 183, `sess.get`), the resolution POST (line 192,
module-level `requests.post`), then for video the one streaming GET
(line 203, `sess.get`) and for photo one streaming GET per candidate
(line 209, `sess.get`). -/
def v3Requests (content_type videoDl : String) (photoDls : List String) :
    List (String × Transport) :=
  [("https://tiktokio.com/", .session),
   ("https://tiktokio.com/api/v1/tk-htmx", .moduleLevel)] ++
  (if content_type = "video" then [(videoDl, .session)]
   else photoDls.map (fun dl => (dl, .session)))

/-- Modelled from the spec: the retry execution loop of the Retrying
Transport (§4.3) — the `urllib3.util.Retry` machinery itself is not among
this repository's sources.  At most `fuel` further attempts are made;
`responses i` is attempt `i`'s result (`some s` a status code, `none` a
connection-level failure); a status on the forcelist or a connection
failure is retried, anything else is returned to the caller at once.
Returns the number of attempts made and the final response (`none` when
the attempt budget was exhausted, surfacing a transport-level failure). -/
def retryGo (cfg : RetryCfg) (responses : Nat → Option Nat) : Nat → Nat → Nat × Option Nat
  | 0, i => (i, none)
  | fuel + 1, i =>
    match responses i with
    | none => retryGo cfg responses fuel (i + 1)
    | some s =>
      if s ∈ cfg.status_forcelist then retryGo cfg responses fuel (i + 1)
      else (i + 1, some s)

/-- Modelled from the spec: one request through the Retrying Transport,
with the attempt budget `cfg.total` (§4.3: "maximum 10 attempts"). -/
def retryRun (cfg : RetryCfg) (responses : Nat → Option Nat) : Nat × Option Nat :=
  retryGo cfg responses cfg.total 0

/-! ## Spec-side path formulas (§6 "Output layout"), for the refinement claim C8 -/

/-- Spec §6, grouped layout: `<outputDir>/<authorHandle>/<name>.<ext>`. -/
def specGroupedPath (out author name ext : String) : String :=
  out ++ "/" ++ author ++ "/" ++ name ++ "." ++ ext

/-- Spec §6, flat layout: `<outputDir>/<authorHandle>_<name>.<ext>`. -/
def specFlatPath (out author name ext : String) : String :=
  out ++ "/" ++ author ++ "_" ++ name ++ "." ++ ext

/-! ## Concrete fixtures (used by witnesses and counterexamples) -/

/-- The empty filesystem. -/
def fs0 : FS := ⟨[], []⟩

/-- Defaults: clean variant, no metadata, no skip, grouped layout. -/
def cfg0 : Config := ⟨false, false, false, false, "out"⟩

def linkVideo : String := "https://www.tiktok.com/@user1/video/55"

def linkPhoto : String := "https://www.tiktok.com/@user1/photo/55"

/-- A fetch oracle that fails every URL. -/
def noFetch : String → Except PyError (List String) := fun _ => .error (.requestError "fetch refused")

/-- A metadata oracle that fails every URL. -/
def noMeta : String → Except PyError String := fun _ => .error (.requestError "metadata refused")

/-- A v3 page with three video candidates whose fetches all succeed. -/
def envVideoOk : V3Env := ⟨id, none, ["d0", "d1", "d2"], [], fun _ => .ok ["chunk"], noMeta⟩

/-- A v3 page with zero photo candidates. -/
def envPhotoEmpty : V3Env := ⟨id, none, [], [], noFetch, noMeta⟩

/-- Defaults plus `--skip-existing`. -/
def cfgSkip : Config := ⟨false, false, true, false, "out"⟩

/-- A filesystem already holding the destination of `linkVideo`. -/
def fsExisting : FS := ⟨["out/user1"], [("out/user1/55.mp4", ["old"])]⟩

/-- Defaults plus `--save-metadata`. -/
def cfgMeta : Config := ⟨false, true, false, false, "out"⟩

/-- A v1 mirror response with the error flag unset and zero candidates. -/
def envV1Empty : V1Env := ⟨id, none, false, [], [], noFetch, noMeta⟩

/-- A v3 page with one photo candidate whose fetch fails. -/
def envPhotoFail : V3Env := ⟨id, none, [], ["p0"], noFetch, noMeta⟩

/-! ## Shared helper lemmas -/

/-- Python's `split` never returns an empty list. -/
theorem splitNewlines_ne_nil : ∀ s : List Char, ¬ splitNewlines s = [] := by
  intro s
  cases s with
  | nil => simp [splitNewlines]
  | cons c rest =>
    simp only [splitNewlines]
    split
    · simp
    · split <;> simp

theorem FS.files_mkdirIfMissing (fs : FS) (d : String) :
    (fs.mkdirIfMissing d).files = fs.files := by
  unfold FS.mkdirIfMissing; split <;> rfl

theorem FS.fileExists_mkdirIfMissing (fs : FS) (d p : String) :
    (fs.mkdirIfMissing d).fileExists p = fs.fileExists p := by
  unfold FS.fileExists; rw [FS.files_mkdirIfMissing]

/-- Whenever its own `extract_video_id` call succeeds, `downloader`
computes the destination path of lines 119-129 and performs exactly one
extraction. -/
theorem downloader_mediaPath_extractCalls (cfg : Config) (env : DlEnv)
    (file_name link : String) (response : List String) (extension : String)
    (fs : FS) (u v t : String)
    (hx : extract_video_id env.resolve link = .ok (u, v, t)) :
    (downloader cfg env file_name link response extension fs).mediaPath =
      some (destPath cfg (u.drop 1) file_name extension) ∧
    (downloader cfg env file_name link response extension fs).extractCalls = 1 := by
  simp only [downloader, hx]
  split
  · exact ⟨rfl, rfl⟩
  · split
    · split
      · exact ⟨rfl, rfl⟩
      · exact ⟨rfl, rfl⟩
    · exact ⟨rfl, rfl⟩

/-- A `downloader` call for photo content never raises (the metadata
section is skipped for photos), provided its own extraction succeeds. -/
theorem downloader_raised_photo (cfg : Config) (env : DlEnv)
    (file_name link : String) (response : List String) (extension : String)
    (fs : FS) (u v : String)
    (hx : extract_video_id env.resolve link = .ok (u, v, "photo")) :
    (downloader cfg env file_name link response extension fs).raised = none := by
  have hcond : (cfg.save_metadata && !("photo" = "photo")) = false := by simp
  simp only [downloader, hx, hcond]
  split
  · rfl
  · simp

/-- When every photo fetch succeeds, the photo loop completes, writes the
indexed `_0, _1, ...` destinations in document order, and calls the
extractor once per file. -/
theorem photoLoop_all_ok (cfg : Config) (denv : DlEnv)
    (fetch : String → Except PyError (List String)) (file_name link u v : String)
    (hx : extract_video_id denv.resolve link = .ok (u, v, "photo")) :
    ∀ (links : List String) (k : Nat) (fs : FS),
      (∀ dl ∈ links, ∃ ch, fetch dl = .ok ch) →
      (photoLoop cfg denv fetch file_name link links k fs).error = none ∧
      (photoLoop cfg denv fetch file_name link links k fs).mediaPaths =
        (List.range links.length).map
          (fun i => destPath cfg (u.drop 1) (file_name ++ "_" ++ toString (k + i)) "jpeg") ∧
      (photoLoop cfg denv fetch file_name link links k fs).extractCalls = links.length := by
  intro links
  induction links with
  | nil => intro k fs _; exact ⟨rfl, rfl, rfl⟩
  | cons dl rest ih =>
    intro k fs hall
    obtain ⟨ch, hch⟩ := hall dl (List.mem_cons_self _ _)
    have hrest : ∀ d ∈ rest, ∃ c, fetch d = .ok c :=
      fun d hd => hall d (List.mem_cons_of_mem _ hd)
    have hmp := downloader_mediaPath_extractCalls cfg denv
      (file_name ++ "_" ++ toString k) link ch "jpeg" fs u v "photo" hx
    have hrn := downloader_raised_photo cfg denv
      (file_name ++ "_" ++ toString k) link ch "jpeg" fs u v hx
    obtain ⟨ihe, ihm, ihc⟩ :=
      ih (k + 1) (downloader cfg denv (file_name ++ "_" ++ toString k) link ch "jpeg" fs).fs hrest
    simp only [photoLoop, hch, hrn]
    refine ⟨ihe, ?_, ?_⟩
    · rw [hmp.1, ihm]
      rw [List.length_cons, List.range_succ_eq_map, List.map_cons, List.map_map]
      simp only [Option.toList_some, List.singleton_append, Nat.add_zero]
      congr 1
      apply List.map_congr_left
      intro i _
      simp only [Function.comp_apply]
      have h1 : k + 1 + i = k + (i + 1) := by omega
      rw [h1]
    · rw [hmp.2, ihc, List.length_cons]
      omega

/-- Whatever the fetch outcomes, the photo loop performs one extraction per
file it reached (its extraction-call count equals the number of computed
destination paths). -/
theorem photoLoop_calls_eq_paths (cfg : Config) (denv : DlEnv)
    (fetch : String → Except PyError (List String)) (file_name link u v t : String)
    (hx : extract_video_id denv.resolve link = .ok (u, v, t)) :
    ∀ (links : List String) (k : Nat) (fs : FS),
      (photoLoop cfg denv fetch file_name link links k fs).extractCalls =
        (photoLoop cfg denv fetch file_name link links k fs).mediaPaths.length := by
  intro links
  induction links with
  | nil => intro k fs; rfl
  | cons dl rest ih =>
    intro k fs
    cases hch : fetch dl with
    | error e => simp [photoLoop, hch]
    | ok ch =>
      have hmp := downloader_mediaPath_extractCalls cfg denv
        (file_name ++ "_" ++ toString k) link ch "jpeg" fs u v t hx
      cases hr : (downloader cfg denv (file_name ++ "_" ++ toString k) link ch "jpeg" fs).raised with
      | some e =>
        simp only [photoLoop, hch, hr]
        rw [hmp.2, hmp.1]
        rfl
      | none =>
        simp only [photoLoop, hch, hr]
        rw [hmp.2, hmp.1]
        simp only [Option.toList_some, List.length_append, List.length_singleton]
        rw [ih]

/-- Characterisation of `download_v3` on the video path once a candidate
has been selected and its streaming GET succeeded: the call reduces to the
`downloader` invocation of line 204. -/
theorem v3_video_result (cfg : Config) (env : V3Env) (link : String) (fs : FS)
    (u id0 dl : String) (chunks : List String)
    (hx : extract_video_id env.resolve link = .ok (u, id0, "video"))
    (hboot : env.bootstrap = none)
    (hget : env.videoLinks.get? (if cfg.watermark then 2 else 0) = some dl)
    (hfetch : env.fetch dl = .ok chunks) :
    download_v3 cfg env link fs =
      (let d := downloader cfg env.dlEnv id0 link chunks "mp4" fs
       match d.raised with
       | some e => ⟨d.fs, 1 + d.extractCalls, d.mediaPath.toList, d.metadataFetches, .failed e⟩
       | none => ⟨d.fs, 1 + d.extractCalls, d.mediaPath.toList, d.metadataFetches, .ok⟩) := by
  simp only [download_v3, hx, hboot]
  split
  · split
    · next h0 =>
      exfalso
      rw [List.length_eq_zero.mp h0] at hget
      simp at hget
    · simp only [hget, hfetch]
  · next h => exact absurd trivial h

/-- Characterisation of `download_v3` on the photo path: the call reduces
to the enumerate loop of lines 206-210. -/
theorem v3_photo_result (cfg : Config) (env : V3Env) (link : String) (fs : FS)
    (u id0 : String)
    (hx : extract_video_id env.resolve link = .ok (u, id0, "photo"))
    (hboot : env.bootstrap = none) :
    download_v3 cfg env link fs =
      (let p := photoLoop cfg env.dlEnv env.fetch id0 link env.photoLinks 0 fs
       match p.error with
       | some e => ⟨p.fs, 1 + p.extractCalls, p.mediaPaths, p.metadataFetches, .failed e⟩
       | none => ⟨p.fs, 1 + p.extractCalls, p.mediaPaths, p.metadataFetches, .ok⟩) := by
  simp only [download_v3, hx, hboot]
  split
  · next h => exact absurd h (by decide)
  · rfl

/-- If some photo fetch in the list fails, the photo loop stops with an
error. -/
theorem photoLoop_fail_of_fetch_fail (cfg : Config) (denv : DlEnv)
    (fetch : String → Except PyError (List String)) (file_name link u v : String)
    (hx : extract_video_id denv.resolve link = .ok (u, v, "photo")) :
    ∀ (links : List String) (k : Nat) (fs : FS),
      (∃ dl ∈ links, ∀ ch, ¬ fetch dl = .ok ch) →
      ¬ (photoLoop cfg denv fetch file_name link links k fs).error = none := by
  intro links
  induction links with
  | nil => intro k fs h; rcases h with ⟨dl, hm, _⟩; simp at hm
  | cons dl0 rest ih =>
    intro k fs h
    cases hch : fetch dl0 with
    | error e => simp [photoLoop, hch]
    | ok ch =>
      have hrn := downloader_raised_photo cfg denv
        (file_name ++ "_" ++ toString k) link ch "jpeg" fs u v hx
      simp only [photoLoop, hch, hrn]
      rcases h with ⟨dl, hm, hfail⟩
      rcases List.mem_cons.mp hm with rfl | hm2
      · exact absurd hch (hfail ch)
      · exact ih (k + 1) _ ⟨dl, hm2, hfail⟩

theorem FS.fileExists_writeFile_self (fs : FS) (p : String) (chunks : List String) :
    (fs.writeFile p chunks).fileExists p = true := by
  simp [FS.writeFile, FS.fileExists]

theorem FS.fileExists_writeFile_of (fs : FS) (p q : String) (chunks : List String)
    (h : fs.fileExists p = true) : (fs.writeFile q chunks).fileExists p = true := by
  unfold FS.fileExists at h ⊢
  unfold FS.writeFile
  simp only [List.any_eq_true, decide_eq_true_eq] at h ⊢
  obtain ⟨e, he, hep⟩ := h
  by_cases hpq : p = q
  · exact ⟨(q, chunks), List.mem_cons_self _ _, hpq.symm⟩
  · refine ⟨e, List.mem_cons_of_mem _ ?_, hep⟩
    rw [List.mem_filter]
    refine ⟨he, ?_⟩
    simp only [decide_eq_true_eq]
    rw [hep]
    exact hpq

theorem FS.fileExists_mkdirIfMissing_t (fs : FS) (d p : String)
    (h : fs.fileExists p = true) : (fs.mkdirIfMissing d).fileExists p = true := by
  rw [FS.fileExists_mkdirIfMissing]; exact h

/-- `downloader` on the genuine-write path with metadata enabled and a
non-photo content type, when `extract_metadata` succeeds (lines 135-159). -/
theorem downloader_meta_ok (cfg : Config) (env : DlEnv) (file_name link : String)
    (response : List String) (extension : String) (fs : FS) (u v t m : String)
    (hx : extract_video_id env.resolve link = .ok (u, v, t))
    (hmetaOn : cfg.save_metadata = true)
    (htp : ¬ t = "photo")
    (hnex : fs.fileExists (destPath cfg (u.drop 1) file_name extension) = false)
    (hme : env.extract_metadata link = .ok m) :
    downloader cfg env file_name link response extension fs =
      ⟨((((fs.mkdirIfMissing (downloaderFolder cfg (u.drop 1))).writeFile
            (destPath cfg (u.drop 1) file_name extension) response).mkdirIfMissing
            (metadataDir cfg (u.drop 1))).writeFile
            (osJoin (metadataDir cfg (u.drop 1))
              (downloaderFileBase cfg (u.drop 1) file_name ++ ".json")) [m]),
        1, response.length, response.length, 1,
        some (destPath cfg (u.drop 1) file_name extension), none⟩ := by
  unfold destPath at hnex
  simp only [downloader, hx, FS.fileExists_mkdirIfMissing, hnex, Bool.false_and,
    Bool.false_eq_true, if_false, hmetaOn, htp, Bool.true_and, hme]
  simp [htp, destPath]

/-- `downloader` on the genuine-write path with metadata enabled and a
non-photo content type, when `extract_metadata` raises: the media file is
already written, and the exception escapes `downloader`. -/
theorem downloader_meta_err (cfg : Config) (env : DlEnv) (file_name link : String)
    (response : List String) (extension : String) (fs : FS) (u v t : String) (e : PyError)
    (hx : extract_video_id env.resolve link = .ok (u, v, t))
    (hmetaOn : cfg.save_metadata = true)
    (htp : ¬ t = "photo")
    (hnex : fs.fileExists (destPath cfg (u.drop 1) file_name extension) = false)
    (hme : env.extract_metadata link = .error e) :
    downloader cfg env file_name link response extension fs =
      ⟨(((fs.mkdirIfMissing (downloaderFolder cfg (u.drop 1))).writeFile
            (destPath cfg (u.drop 1) file_name extension) response).mkdirIfMissing
            (metadataDir cfg (u.drop 1))),
        1, response.length, response.length, 1,
        some (destPath cfg (u.drop 1) file_name extension), some e⟩ := by
  unfold destPath at hnex
  simp only [downloader, hx, FS.fileExists_mkdirIfMissing, hnex, Bool.false_and,
    Bool.false_eq_true, if_false, hmetaOn, htp, Bool.true_and, hme]
  simp [htp, destPath]

theorem retryGo_attempts_le (cfg : RetryCfg) (responses : Nat → Option Nat) :
    ∀ fuel i, (retryGo cfg responses fuel i).1 ≤ i + fuel := by
  intro fuel
  induction fuel with
  | zero => intro i; simp [retryGo]
  | succ f ih =>
    intro i
    unfold retryGo
    cases responses i with
    | none => exact le_trans (ih (i + 1)) (by omega)
    | some s =>
      by_cases hs : s ∈ cfg.status_forcelist
      · simp only [hs, if_true]
        exact le_trans (ih (i + 1)) (by omega)
      · simp only [hs, if_false]
        omega

/-! ## Claim theorems -/

/-- C1: a Link already present in the Dedup Cache is never redispatched:
`process_tt_link` returns with the run state (cache, error log, files)
unchanged and the download function invoked zero times — for any download
function, so no network request is made for that Link. -/
theorem C1_cached_link_not_redispatched (dl : String → FS → AttemptResult)
    (st : RunState) (link : String) (h : st.cache.contains link = true) :
    process_tt_link dl st link = (st, 0) := by
  unfold process_tt_link
  simp only [h]
  simp

/-- Witness for C1 at a concrete cached link. -/
theorem C1_witness :
    (⟨["L"], [], fs0⟩ : RunState).cache.contains "L" = true ∧
    process_tt_link (fun _ fs => ⟨fs, 0, [], 0, .ok⟩) ⟨["L"], [], fs0⟩ "L" = (⟨["L"], [], fs0⟩, 0) :=
  ⟨by decide, C1_cached_link_not_redispatched _ _ _ (by decide)⟩

/-- C5 counterexample: the claim says EVERY outbound HTTP request made by
a provider strategy is wrapped with the bounded retry, but the resolution
POST of `download_v3` (line 192, `requests.post('https://tiktokio.com/api/v1/tk-htmx', ...)`)
is issued through the module-level `requests` API, not through the session
`sess` on which the retry adapter was mounted at line 180 — no retry
configuration of this program applies to it. -/
theorem C5_counterexample :
    ("https://tiktokio.com/api/v1/tk-htmx", Transport.moduleLevel) ∈
      v3Requests "video" "d0" [] ∧
    transportRetries Transport.moduleLevel = none := by
  constructor
  · simp [v3Requests]
  · rfl

/-- C5 amended: the source mounts a retry policy with `total = 10`,
`backoff_factor = 1` and forcelist `{429, 500, 502, 503, 504}` on both URL
schemes of the provider session, and every `download_v3` request issued
through that session is governed by it — but not every provider request
is: the resolution POST of line 192 goes through module-level `requests`
and bypasses the mounted retry entirely.  Under the spec-modelled retry
loop, a wrapped request seeing three 503 responses followed by a 200
succeeds after exactly 4 attempts, a response outside the forcelist is
returned after exactly 1 attempt with no retry, and no wrapped request
ever makes more than 10 attempts. -/
theorem C5_retrying_transport :
    retries = ⟨10, 1, [429, 500, 502, 503, 504]⟩ ∧
    mount_retry_logic_to_session = [("http://", retries), ("https://", retries)] ∧
    (∀ (ct vdl : String) (pdls : List String), ∀ r ∈ v3Requests ct vdl pdls,
      r.2 = Transport.session → transportRetries r.2 = some retries) ∧
    (∀ (ct vdl : String) (pdls : List String),
      ("https://tiktokio.com/api/v1/tk-htmx", Transport.moduleLevel) ∈ v3Requests ct vdl pdls ∧
      transportRetries Transport.moduleLevel = none) ∧
    retryRun retries (fun i => if i < 3 then some 503 else some 200) = (4, some 200) ∧
    (∀ (responses : Nat → Option Nat) (s : Nat), responses 0 = some s →
      s ∉ retries.status_forcelist → retryRun retries responses = (1, some s)) ∧
    (∀ responses : Nat → Option Nat, (retryRun retries responses).1 ≤ 10) := by
  refine ⟨rfl, rfl, ?_, ?_, by decide, ?_, ?_⟩
  · intro ct vdl pdls r _ hsess
    rw [hsess]
    rfl
  · intro ct vdl pdls
    exact ⟨by simp [v3Requests], rfl⟩
  · intro responses s h0 hs
    show retryGo retries responses 10 0 = (1, some s)
    unfold retryGo
    rw [h0]
    simp [hs]
  · intro responses
    exact retryGo_attempts_le retries responses 10 0

/-- Witness for the amended C5: a 404 through the wrapped transport is
answered after exactly one attempt. -/
theorem C5_witness : retryRun retries (fun _ => some 404) = (1, some 404) :=
  C5_retrying_transport.2.2.2.2.2.1 (fun _ => some 404) 404 rfl (by decide)

/-- C6: identity extraction is deterministic and all-or-nothing.  For a
link that needs no short-redirect resolution the result is independent of
the redirect oracle (so two applications agree); an input missing the
`@handle` pattern or the `/(video|photo)/<id>` pattern fails with a
`MalformedLinkError`; and every successful extraction carries exactly the
two pattern matches, never a partial identity. -/
theorem C6_extract_deterministic_all_or_nothing :
    (∀ (url : String) (r₁ r₂ : String → String),
      containsSub url.toList "vm.tiktok.com".toList = false →
      extract_video_id r₁ url = extract_video_id r₂ url ∧
      extract_video_id r₁ url = extractCore url) ∧
    (∀ url : String,
      searchUsername url.toList = none ∨ searchContent url.toList = none →
      ∃ e : MalformedLinkError, extractCore url = .error e) ∧
    (∀ url u v t : String, extractCore url = .ok (u, v, t) →
      ∃ run ct run2, searchUsername url.toList = some run ∧ u = run.asString ∧
        searchContent url.toList = some (ct, run2) ∧ t = ct ∧ v = run2.asString) := by
  refine ⟨?_, ?_, ?_⟩
  · intro url r₁ r₂ h
    unfold extract_video_id resolveUrl
    rw [h]
    simp
  · intro url h
    unfold extractCore
    cases hu : searchUsername url.toList with
    | none => exact ⟨.noUsernameMatch, rfl⟩
    | some u =>
      cases hc : searchContent url.toList with
      | none => exact ⟨.noContentMatch, rfl⟩
      | some p =>
        rw [hu, hc] at h
        rcases h with h | h <;> simp at h
  · intro url u v t h
    unfold extractCore at h
    cases hu : searchUsername url.toList with
    | none => rw [hu] at h; simp at h
    | some run =>
      cases hc : searchContent url.toList with
      | none => rw [hu, hc] at h; simp at h
      | some p =>
        rw [hu, hc] at h
        simp only [Except.ok.injEq, Prod.mk.injEq] at h
        exact ⟨run, p.1, p.2, rfl, h.1.symm, rfl, h.2.2.symm, h.2.1.symm⟩

/-- C7: with skip-existing enabled and the computed destination already on
disk, `downloader` returns having performed zero writes to the destination,
zero reads of the response body stream, and zero metadata fetches, leaving
every file's contents unchanged and raising nothing. -/
theorem C7_skip_existing_zero_io (cfg : Config) (env : DlEnv)
    (file_name link : String) (response : List String) (extension : String)
    (fs : FS) (u v t : String)
    (hx : extract_video_id env.resolve link = .ok (u, v, t))
    (hskip : cfg.skip_existing = true)
    (hex : fs.fileExists (destPath cfg (u.drop 1) file_name extension) = true) :
    (downloader cfg env file_name link response extension fs).fs.files = fs.files ∧
    (downloader cfg env file_name link response extension fs).streamReads = 0 ∧
    (downloader cfg env file_name link response extension fs).fileWrites = 0 ∧
    (downloader cfg env file_name link response extension fs).metadataFetches = 0 ∧
    (downloader cfg env file_name link response extension fs).raised = none := by
  unfold destPath at hex
  simp only [downloader, hx, FS.fileExists_mkdirIfMissing, hex, hskip, Bool.and_self, if_true]
  simp [FS.files_mkdirIfMissing]

/-- Witness for C7: a concrete existing destination is neither re-read nor
re-written. -/
theorem C7_witness :
    (downloader cfgSkip ⟨id, noMeta⟩ "55" linkVideo ["new"] "mp4" fsExisting).fs.files =
      fsExisting.files ∧
    (downloader cfgSkip ⟨id, noMeta⟩ "55" linkVideo ["new"] "mp4" fsExisting).streamReads = 0 ∧
    (downloader cfgSkip ⟨id, noMeta⟩ "55" linkVideo ["new"] "mp4" fsExisting).fileWrites = 0 ∧
    (downloader cfgSkip ⟨id, noMeta⟩ "55" linkVideo ["new"] "mp4" fsExisting).metadataFetches = 0 ∧
    (downloader cfgSkip ⟨id, noMeta⟩ "55" linkVideo ["new"] "mp4" fsExisting).raised = none :=
  C7_skip_existing_zero_io cfgSkip ⟨id, noMeta⟩ "55" linkVideo ["new"] "mp4" fsExisting
    "@user1" "55" "video" rfl rfl (by decide)

/-- C8: the destination path is a pure function of the content identity,
the configuration and, for photo sets, the element index.  The path the
stream downloader computes equals the spec's formula — grouped
`<out>/<author>/<name>.<ext>`, flat `<out>/<author>_<name>.<ext>` — and a
v3 attempt names the video file `<contentId>.mp4` and the photo-set files
`<contentId>_<index>.jpeg` in document order. -/
theorem C8_destination_paths (cfg : Config) (env : V3Env) (link : String)
    (fs : FS) (u id0 : String) :
    (∀ user name ext, destPath cfg user name ext =
      if cfg.no_folders then specFlatPath cfg.output_dir user name ext
      else specGroupedPath cfg.output_dir user name ext) ∧
    (∀ dl chunks, extract_video_id env.resolve link = .ok (u, id0, "video") →
      env.bootstrap = none →
      env.videoLinks.get? (if cfg.watermark then 2 else 0) = some dl →
      env.fetch dl = .ok chunks →
      (download_v3 cfg env link fs).mediaPaths = [destPath cfg (u.drop 1) id0 "mp4"]) ∧
    (extract_video_id env.resolve link = .ok (u, id0, "photo") →
      env.bootstrap = none →
      (∀ dl ∈ env.photoLinks, ∃ ch, env.fetch dl = .ok ch) →
      (download_v3 cfg env link fs).mediaPaths =
        (List.range env.photoLinks.length).map
          (fun i => destPath cfg (u.drop 1) (id0 ++ "_" ++ toString i) "jpeg")) := by
  refine ⟨?_, ?_, ?_⟩
  · intro user name ext
    cases h : cfg.no_folders <;>
      simp [destPath, downloaderFolder, downloaderFileBase, osJoin, specFlatPath,
        specGroupedPath, h, String.append_assoc]
  · intro dl chunks hx hboot hget hfetch
    rw [v3_video_result cfg env link fs u id0 dl chunks hx hboot hget hfetch]
    have hmp := (downloader_mediaPath_extractCalls cfg env.dlEnv id0 link chunks
      "mp4" fs u id0 "video" hx).1
    cases hr : (downloader cfg env.dlEnv id0 link chunks "mp4" fs).raised <;>
      simp only [hr] <;> rw [hmp] <;> rfl
  · intro hx hboot hall
    rw [v3_photo_result cfg env link fs u id0 hx hboot]
    obtain ⟨he, hm, _⟩ := photoLoop_all_ok cfg env.dlEnv env.fetch id0 link u id0 hx
      env.photoLinks 0 fs hall
    simp only [he]
    rw [hm]
    apply List.map_congr_left
    intro i _
    rw [Nat.zero_add]

/-- Witness for C8: a concrete successful v3 video attempt writes exactly
`out/user1/55.mp4`. -/
theorem C8_witness :
    (download_v3 cfg0 envVideoOk linkVideo fs0).mediaPaths = [destPath cfg0 "user1" "55" "mp4"] :=
  (C8_destination_paths cfg0 envVideoOk linkVideo fs0 "@user1" "55").2.1 "d0" ["chunk"]
    rfl rfl rfl rfl

/-- C9 counterexample: the claim says the content identity is derived once
per attempt with no re-derivation outside auxiliary metadata fetches, but a
concrete successful single-file video attempt (metadata disabled, so zero
metadata fetches) performs two `extract_video_id` calls — one in
`download_v3` (line 177) and one inside `downloader` (line 116). -/
theorem C9_counterexample :
    (download_v3 cfg0 envVideoOk linkVideo fs0).extractCalls = 2 ∧
    (download_v3 cfg0 envVideoOk linkVideo fs0).metadataFetches = 0 ∧
    (download_v3 cfg0 envVideoOk linkVideo fs0).mediaPaths.length = 1 :=
  ⟨rfl, rfl, rfl⟩

/-- C9 amended: within one v3 attempt the identity is derived once by the
provider function and then re-derived by the stream downloader for every
file it reaches (independently of metadata fetching): the number of
extractor calls is exactly one plus the number of computed destination
paths. -/
theorem C9_one_extra_extract_per_file (cfg : Config) (env : V3Env) (link : String)
    (fs : FS) (u id0 t : String)
    (hx : extract_video_id env.resolve link = .ok (u, id0, t)) :
    (download_v3 cfg env link fs).extractCalls =
      1 + (download_v3 cfg env link fs).mediaPaths.length := by
  simp only [download_v3, hx]
  cases hboot : env.bootstrap with
  | some e => simp
  | none =>
    by_cases htv : t = "video"
    · rw [if_pos htv]
      by_cases hlen : env.videoLinks.length = 0
      · rw [if_pos hlen]; simp
      · rw [if_neg hlen]
        cases hget : env.videoLinks.get? (if cfg.watermark then 2 else 0) with
        | none => simp
        | some dl =>
          simp only [hget]
          cases hfetch : env.fetch dl with
          | error e => simp
          | ok chunks =>
            simp only [hfetch]
            have hmp := downloader_mediaPath_extractCalls cfg env.dlEnv id0 link chunks
              "mp4" fs u id0 t hx
            cases hr : (downloader cfg env.dlEnv id0 link chunks "mp4" fs).raised <;>
              simp only [hr] <;> rw [hmp.2, hmp.1] <;> rfl
    · rw [if_neg htv]
      have hcp := photoLoop_calls_eq_paths cfg env.dlEnv env.fetch id0 link u id0 t hx
        env.photoLinks 0 fs
      cases hpe : (photoLoop cfg env.dlEnv env.fetch id0 link env.photoLinks 0 fs).error <;>
        simp only [hpe] <;> rw [hcp]

/-- Witness for the amended C9 at a concrete successful video attempt. -/
theorem C9_witness :
    (download_v3 cfg0 envVideoOk linkVideo fs0).extractCalls =
      1 + (download_v3 cfg0 envVideoOk linkVideo fs0).mediaPaths.length :=
  C9_one_extra_extract_per_file cfg0 envVideoOk linkVideo fs0 "@user1" "55" "video" rfl

/-- C2: for a not-yet-cached Link, the Orchestrator writes the Link into
the cache if and only if the provider function returned success; in
particular a failure while downloading any single file of a multi-file
photo set makes the v3 attempt fail, so the cache entry is not written. -/
theorem C2_cache_written_iff_success (cfg : Config) (env : V3Env) (st : RunState)
    (link : String) (hc : st.cache.contains link = false) :
    ((process_tt_link (download_v3 cfg env) st link).1.cache =
      if (download_v3 cfg env link st.fs).outcome = .ok then link :: st.cache
      else st.cache) ∧
    (∀ u id0, extract_video_id env.resolve link = .ok (u, id0, "photo") →
      env.bootstrap = none →
      (∃ dl ∈ env.photoLinks, ∀ ch, ¬ env.fetch dl = .ok ch) →
      ¬ (download_v3 cfg env link st.fs).outcome = .ok) := by
  constructor
  · unfold process_tt_link
    simp only [hc]
    cases ho : (download_v3 cfg env link st.fs).outcome with
    | ok => simp [ho]
    | failed e => simp [ho]
    | raised e => simp [ho]
  · intro u id0 hx hboot hfail
    rw [v3_photo_result cfg env link st.fs u id0 hx hboot]
    have hperr := photoLoop_fail_of_fetch_fail cfg env.dlEnv env.fetch id0 link u id0 hx
      env.photoLinks 0 st.fs hfail
    cases hpe : (photoLoop cfg env.dlEnv env.fetch id0 link env.photoLinks 0 st.fs).error with
    | none => exact absurd hpe hperr
    | some e => simp [hpe]

/-- Witness for C2: a successful concrete v3 attempt is cached, and a
photo set whose only fetch fails is not. -/
theorem C2_witness :
    (process_tt_link (download_v3 cfg0 envVideoOk) ⟨[], [], fs0⟩ linkVideo).1.cache =
      [linkVideo] ∧
    (process_tt_link (download_v3 cfg0 envPhotoFail) ⟨[], [], fs0⟩ linkPhoto).1.cache = [] := by
  constructor
  · have h := (C2_cache_written_iff_success cfg0 envVideoOk ⟨[], [], fs0⟩ linkVideo rfl).1
    rw [h]
    rfl
  · have h := (C2_cache_written_iff_success cfg0 envPhotoFail ⟨[], [], fs0⟩ linkPhoto rfl).1
    rw [h]
    rfl

/-- C3 counterexample: the claim says a provider strategy finding zero
candidate URLs fails the Link with a content-unavailable classification
for photo content too, but a concrete v3 photo attempt with zero
candidates runs a zero-iteration loop and returns success — the pipeline
does not fail at all (and writes no file). -/
theorem C3_counterexample :
    (download_v3 cfg0 envPhotoEmpty linkPhoto fs0).outcome = .ok ∧
    (download_v3 cfg0 envPhotoEmpty linkPhoto fs0).fs = fs0 ∧
    (download_v3 cfg0 envPhotoEmpty linkPhoto fs0).mediaPaths = [] :=
  ⟨rfl, rfl, rfl⟩

/-- C3 amended: with zero candidate URLs no file is ever written, but the
classification differs by path — v3 video fails with the
content-unavailable error; v1 video with the mirror's error flag unset
fails with an index error instead; v1 with the error flag set fails
content-unavailable; and photo content (v3 and v1 alike) does not fail at
all: the attempt succeeds having written nothing. -/
theorem C3_zero_candidates (cfg : Config) (env3 : V3Env) (env1 : V1Env)
    (link : String) (fs : FS) (u id0 t : String) :
    (extract_video_id env3.resolve link = .ok (u, id0, "video") →
      env3.bootstrap = none → env3.videoLinks = [] →
      download_v3 cfg env3 link fs = ⟨fs, 1, [], 0, .failed .contentUnavailable⟩) ∧
    (extract_video_id env3.resolve link = .ok (u, id0, "photo") →
      env3.bootstrap = none → env3.photoLinks = [] →
      download_v3 cfg env3 link fs = ⟨fs, 1, [], 0, .ok⟩) ∧
    (extract_video_id env1.resolve link = .ok (u, id0, "video") →
      env1.bootstrap = none → env1.errorFlag = false → env1.videoLinks = [] →
      download_v1 cfg env1 link fs = ⟨fs, 1, [], 0, .failed .indexError⟩) ∧
    (extract_video_id env1.resolve link = .ok (u, id0, t) →
      env1.bootstrap = none → env1.errorFlag = true →
      download_v1 cfg env1 link fs = ⟨fs, 1, [], 0, .failed .contentUnavailable⟩) ∧
    (extract_video_id env1.resolve link = .ok (u, id0, "photo") →
      env1.bootstrap = none → env1.errorFlag = false → env1.photoLinks = [] →
      download_v1 cfg env1 link fs = ⟨fs, 1, [], 0, .ok⟩) := by
  refine ⟨?_, ?_, ?_, ?_, ?_⟩
  · intro hx hboot hv
    simp [download_v3, hx, hboot, hv]
  · intro hx hboot hp
    rw [v3_photo_result cfg env3 link fs u id0 hx hboot, hp]
    rfl
  · intro hx hboot herr hv
    cases hw : cfg.watermark <;>
      simp [download_v1, hx, hboot, herr, hv, hw]
  · intro hx hboot herr
    simp [download_v1, hx, hboot, herr]
  · intro hx hboot herr hp
    simp [download_v1, hx, hboot, herr, hp, photoLoop]

/-- Witness for the amended C3: concrete zero-candidate video attempts
under v3 and v1. -/
theorem C3_witness :
    download_v3 cfg0 envPhotoEmpty linkVideo fs0 = ⟨fs0, 1, [], 0, .failed .contentUnavailable⟩ ∧
    download_v1 cfg0 envV1Empty linkVideo fs0 = ⟨fs0, 1, [], 0, .failed .indexError⟩ :=
  ⟨(C3_zero_candidates cfg0 envPhotoEmpty envV1Empty linkVideo fs0 "@user1" "55" "video").1
      rfl rfl rfl,
    (C3_zero_candidates cfg0 envPhotoEmpty envV1Empty linkVideo fs0 "@user1" "55" "video").2.2.1
      rfl rfl rfl rfl⟩

/-- C4 counterexample: the claim says a metadata-fetch failure is
non-fatal (the Link still classified as succeeded), but in a concrete
attempt with metadata saving enabled the `extract_metadata` exception
escapes `downloader` into the provider's `except`, so `download_v3`
returns `(False, ex)` — the Link is classified as failed, even though the
media file was already written. -/
theorem C4_counterexample :
    (download_v3 cfgMeta envVideoOk linkVideo fs0).outcome =
      .failed (.requestError "metadata refused") ∧
    (download_v3 cfgMeta envVideoOk linkVideo fs0).metadataFetches = 1 ∧
    (download_v3 cfgMeta envVideoOk linkVideo fs0).fs.fileExists "out/user1/55.mp4" = true :=
  ⟨rfl, rfl, rfl⟩

/-- C4 amended: with metadata saving enabled and non-photo content, one
additional fetch-and-parse happens after the media file is written and the
JSON record is stored alongside it on success; but a failure of this
metadata fetch is fatal to the Link outcome: the attempt is classified as
failed (and reported in the error log), the already-written media file
remaining on disk. -/
theorem C4_metadata_fetch (cfg : Config) (env : V3Env) (st : RunState)
    (link u id0 dl : String) (chunks : List String)
    (hmetaOn : cfg.save_metadata = true)
    (hx : extract_video_id env.resolve link = .ok (u, id0, "video"))
    (hboot : env.bootstrap = none)
    (hget : env.videoLinks.get? (if cfg.watermark then 2 else 0) = some dl)
    (hfetch : env.fetch dl = .ok chunks)
    (hnex : st.fs.fileExists (destPath cfg (u.drop 1) id0 "mp4") = false)
    (hc : st.cache.contains link = false) :
    (∀ m, env.extract_metadata link = .ok m →
      (download_v3 cfg env link st.fs).outcome = .ok ∧
      (download_v3 cfg env link st.fs).metadataFetches = 1 ∧
      (download_v3 cfg env link st.fs).fs.fileExists
        (osJoin (metadataDir cfg (u.drop 1))
          (downloaderFileBase cfg (u.drop 1) id0 ++ ".json")) = true) ∧
    (∀ e, env.extract_metadata link = .error e →
      (download_v3 cfg env link st.fs).outcome = .failed e ∧
      (download_v3 cfg env link st.fs).metadataFetches = 1 ∧
      (download_v3 cfg env link st.fs).fs.fileExists
        (destPath cfg (u.drop 1) id0 "mp4") = true ∧
      (process_tt_link (download_v3 cfg env) st link).1.errlog =
        st.errlog ++ [link ++ " - " ++ pyMsg e]) := by
  have hv3 := v3_video_result cfg env link st.fs u id0 dl chunks hx hboot hget hfetch
  constructor
  · intro m hm
    have hd := downloader_meta_ok cfg env.dlEnv id0 link chunks "mp4" st.fs u id0 "video" m
      hx hmetaOn (by decide) hnex hm
    rw [hv3]
    simp only [hd]
    exact ⟨by trivial, by trivial, FS.fileExists_writeFile_self _ _ _⟩
  · intro e he
    have hd := downloader_meta_err cfg env.dlEnv id0 link chunks "mp4" st.fs u id0 "video" e
      hx hmetaOn (by decide) hnex he
    have ho : (download_v3 cfg env link st.fs).outcome = .failed e := by
      rw [hv3]; simp only [hd]
    refine ⟨ho, ?_, ?_, ?_⟩
    · rw [hv3]; simp only [hd]
    · rw [hv3]
      simp only [hd]
      exact FS.fileExists_mkdirIfMissing_t _ _ _ (FS.fileExists_writeFile_self _ _ _)
    · unfold process_tt_link
      simp only [hc, ho]
      rfl

/-- Witness for the amended C4: the concrete failing metadata fetch of the
counterexample leaves exactly one metadata attempt and the media file on
disk. -/
theorem C4_witness :
    (download_v3 cfgMeta envVideoOk linkVideo fs0).metadataFetches = 1 ∧
    (download_v3 cfgMeta envVideoOk linkVideo fs0).fs.fileExists
      (destPath cfgMeta "user1" "55" "mp4") = true ∧
    (process_tt_link (download_v3 cfgMeta envVideoOk) ⟨[], [], fs0⟩ linkVideo).1.errlog =
      [linkVideo ++ " - metadata refused"] := by
  have h := (C4_metadata_fetch cfgMeta envVideoOk ⟨[], [], fs0⟩ linkVideo "@user1" "55" "d0"
    ["chunk"] rfl rfl rfl rfl rfl rfl rfl).2 (.requestError "metadata refused") rfl
  exact ⟨h.2.1, h.2.2.1, h.2.2.2⟩

/-- C10 counterexample: the claim says an empty-line Link failing
extraction is recorded in the error log, but running a whitespace-only
links file (which yields exactly the one empty Link) leaves the error log
— and everything else — unchanged: the `AttributeError` is raised before
the per-link handler and silently discarded by the pool. -/
theorem C10_counterexample :
    tiktok_links "   " = [""] ∧
    runAll (download_v3 cfg0 envPhotoEmpty) "   " ⟨[], [], fs0⟩ = ⟨[], [], fs0⟩ :=
  ⟨rfl, rfl⟩

/-- C10 amended: the processed Links are the newline-split of the
whitespace-stripped links file; a whitespace-only file yields exactly one
empty Link and never an empty list; interior blank lines yield
empty-string Links that are dispatched like any other Link — but a Link
failing extraction raises before the per-link exception handler, so it is
never cached AND never recorded in the error log (the exception is
silently swallowed by the worker pool). -/
theorem C10_blank_line_links :
    (∀ content : String, pythonStrip content.toList = [] → tiktok_links content = [""]) ∧
    (∀ content : String, ¬ tiktok_links content = []) ∧
    tiktok_links "a\n\nb" = ["a", "", "b"] ∧
    (∀ (cfg : Config) (env : V3Env) (st : RunState) (link : String) (e : MalformedLinkError),
      st.cache.contains link = false →
      extract_video_id env.resolve link = .error e →
      process_tt_link (download_v3 cfg env) st link = (st, 1)) := by
  refine ⟨?_, ?_, by decide, ?_⟩
  · intro content h
    unfold tiktok_links
    rw [h]
    rfl
  · intro content hnil
    unfold tiktok_links at hnil
    exact splitNewlines_ne_nil _ (List.map_eq_nil_iff.mp hnil)
  · intro cfg env st link e hcc hx
    unfold process_tt_link
    simp only [hcc]
    simp only [download_v3, hx]
    rfl

/-- Witness for the amended C10: the empty Link is dispatched (one
download-function call) yet leaves cache, error log and filesystem
untouched. -/
theorem C10_witness :
    process_tt_link (download_v3 cfg0 envPhotoEmpty) ⟨[], [], fs0⟩ "" = (⟨[], [], fs0⟩, 1) :=
  C10_blank_line_links.2.2.2 cfg0 envPhotoEmpty ⟨[], [], fs0⟩ "" .noUsernameMatch rfl rfl

/-- Witness for C6 at a concrete canonical link and two distinct redirect
oracles, plus a concrete malformed input. -/
theorem C6_witness :
    (extract_video_id (fun _ => "A") "https://www.tiktok.com/@u/video/9" =
      extract_video_id (fun _ => "B") "https://www.tiktok.com/@u/video/9") ∧
    (∃ e : MalformedLinkError, extractCore "no patterns here" = .error e) :=
  ⟨(C6_extract_deterministic_all_or_nothing.1 "https://www.tiktok.com/@u/video/9"
      (fun _ => "A") (fun _ => "B") (by decide)).1,
    C6_extract_deterministic_all_or_nothing.2.1 "no patterns here" (Or.inl (by decide))⟩

end Multitok
